import Mathlib

/-!
Verification development for the in-memory state engine of a terminal chat
client (channel/message reconciliation, windowed channel-list scrolling and a
UTF-8-safe text cursor).  The definitions below are a shallow embedding of
`src/app.rs`; the input buffer is modelled at the byte level (`List Nat` of
UTF-8 code units) because the source manipulates byte offsets and raw bytes
directly.  External collaborators (the messaging-protocol client) are passed
in as function parameters.
-/

/-! ## Data model -/

/-- A chat message (struct `Message` in `app.rs`).  `from_id` models the
sender `Uuid` as a string; `arrived_at` models the UTC arrival instant by its
raw millisecond timestamp; attachments are kept as opaque descriptors. -/
structure Message where
  from_id : String
  from_ : String
  message : Option String
  attachments : List String
  arrived_at : Nat
deriving DecidableEq

/-- The selection cursor of a stateful list (field `state` of
`util::StatefulList`, a `ListState`): at most one selected index. -/
structure ListState where
  selected : Option Nat
deriving DecidableEq

/-- Modelled from the spec: `util::StatefulList<T>` (the module `util.rs` is
not part of the sources at hand) - an ordered sequence of items plus an
optional selected index. -/
structure StatefulList (α : Type) where
  state : ListState
  items : List α
deriving DecidableEq

/-- Modelled from the spec: `StatefulList::with_items` wraps a vector with no
selection made yet. -/
def StatefulList.with_items {α : Type} (l : List α) : StatefulList α :=
  { state := { selected := none }, items := l }

/-- Modelled from the spec: `StatefulList::previous` moves the selection up by
one with wrap-around (index 0 wraps to the last index); it is a no-op on an
empty list, and selects the first item when nothing was selected. -/
def StatefulList.previous {α : Type} (l : StatefulList α) : StatefulList α :=
  if l.items.isEmpty then l
  else
    match l.state.selected with
    | some 0 => { l with state := { selected := some (l.items.length - 1) } }
    | some (i + 1) => { l with state := { selected := some i } }
    | none => { l with state := { selected := some 0 } }

/-- A conversation channel (struct `Channel` in `app.rs`). -/
structure Channel where
  id : String
  name : String
  is_group : Bool
  messages : StatefulList Message
  unread_messages : Nat
deriving DecidableEq

/-- Viewport bookkeeping (struct `ChannelPosition` in `app.rs`). -/
structure ChannelPosition where
  top : Nat
  upside : Nat
  downside : Nat
deriving DecidableEq

/-- The application snapshot (struct `AppData` in `app.rs`).  The input buffer
is the UTF-8 byte sequence of the Rust `String`; `input_cursor` is a byte
offset, `input_cursor_chars` the parallel character offset. -/
structure AppData where
  channels : StatefulList Channel
  chanpos : ChannelPosition
  input : List Nat
  input_cursor : Nat
  input_cursor_chars : Nat
deriving DecidableEq

/-! ## UTF-8 byte-level primitives -/

/-- The UTF-8 encoding of a Unicode scalar value (what `String::insert`
splices in; `c.len_utf8()` is the length of this list). -/
def encodeChar (c : Nat) : List Nat :=
  if c < 0x80 then [c]
  else if c < 0x800 then [0xC0 + c / 0x40, 0x80 + c % 0x40]
  else if c < 0x10000 then
    [0xE0 + c / 0x1000, 0x80 + c / 0x40 % 0x40, 0x80 + c % 0x40]
  else
    [0xF0 + c / 0x40000, 0x80 + c / 0x1000 % 0x40, 0x80 + c / 0x40 % 0x40,
      0x80 + c % 0x40]

/-- `str::is_char_boundary`: true at 0 and at the total length, false past the
end, and otherwise true exactly when the byte at `i` is not a UTF-8
continuation byte (Rust tests `(b as i8) >= -0x40`). -/
def isCharBoundary (s : List Nat) (i : Nat) : Bool :=
  if i = 0 then true
  else
    match s.get? i with
    | none => decide (i = s.length)
    | some b => decide (b < 0x80) || decide (0xC0 ≤ b)

/-- The loop `while !input.is_char_boundary(idx) { idx -= 1 }` of `on_left`. -/
def scanDown (s : List Nat) : Nat → Nat
  | 0 => 0
  | i + 1 => if !(isCharBoundary s (i + 1)) then scanDown s i else i + 1

/-- The loop `while idx < input.len() && !input.is_char_boundary(idx)
{ idx -= 1 }` shared by `on_right` and `on_backspace`. -/
def scanDownLt (s : List Nat) : Nat → Nat
  | 0 => 0
  | i + 1 =>
    if decide (i + 1 < s.length) && !(isCharBoundary s (i + 1)) then
      scanDownLt s i
    else i + 1

/-- Byte length of the UTF-8 character whose lead byte is `b` (used to model
`String::remove`, which removes one whole character). -/
def utf8LenOfByte (b : Nat) : Nat :=
  if b < 0xC0 then 1 else if b < 0xE0 then 2 else if b < 0xF0 then 3 else 4

/-- Number of characters encoded in a byte sequence: the number of
non-continuation bytes.  On valid UTF-8 this is `chars().count()`. -/
def charCount (s : List Nat) : Nat :=
  (s.filter (fun b => decide (b < 0x80) || decide (0xC0 ≤ b))).length

/-- `buffer[..byte_offset].chars().count()` for the current cursor. -/
def charCountBeforeCursor (d : AppData) : Nat :=
  charCount (d.input.take d.input_cursor)

/-! ## Text-cursor operations (`App::put_char`, `on_home`, `on_end`,
`on_left`, `on_right`, `on_backspace`, word operations) -/

/-- `App::put_char`: insert the character at the byte cursor, advance the byte
cursor by the character's encoded length and the char cursor by one.
(`String::insert` requires the cursor to be a character boundary.) -/
def put_char (d : AppData) (c : Nat) : AppData :=
  let idx := d.input_cursor
  { d with
      input := d.input.take idx ++ encodeChar c ++ d.input.drop idx,
      input_cursor := idx + (encodeChar c).length,
      input_cursor_chars := d.input_cursor_chars + 1 }

/-- `App::on_home`: both cursors to the start. -/
def on_home (d : AppData) : AppData :=
  { d with input_cursor := 0, input_cursor_chars := 0 }

/-- `App::on_end`: byte cursor to the buffer length; the char cursor is set to
`input.width()` (the unicode display width, supplied here as a parameter since
it is computed by an external crate). -/
def on_end (width : List Nat → Nat) (d : AppData) : AppData :=
  { d with input_cursor := d.input.length, input_cursor_chars := width d.input }

/-- `App::on_left`: `checked_sub(1)` then scan down to a character boundary;
`None` at the buffer start. -/
def on_left (d : AppData) : Option AppData :=
  match d.input_cursor with
  | 0 => none
  | k + 1 =>
    let idx := scanDown d.input k
    some { d with input_cursor := idx,
                  input_cursor_chars := d.input_cursor_chars - 1 }

/-- `App::on_right`: start from `cursor + 1` (`None` if that exceeds the
buffer length) and run the loop `while idx < len && !is_char_boundary(idx)
{ idx -= 1 }` - note the loop steps the index down, exactly as the source
does. -/
def on_right (d : AppData) : Option AppData :=
  if d.input_cursor + 1 ≤ d.input.length then
    let idx := scanDownLt d.input (d.input_cursor + 1)
    some { d with input_cursor := idx,
                  input_cursor_chars := d.input_cursor_chars + 1 }
  else none

/-- `App::on_backspace`: `checked_sub(1)`, scan down to a boundary, then
`String::remove` the character starting there. -/
def on_backspace (d : AppData) : Option AppData :=
  match d.input_cursor with
  | 0 => none
  | k + 1 =>
    let idx := scanDownLt d.input k
    let cLen := match d.input.get? idx with
      | some b => utf8LenOfByte b
      | none => 1
    some { d with
            input := d.input.take idx ++ d.input.drop (idx + cLen),
            input_cursor := idx,
            input_cursor_chars := d.input_cursor_chars - 1 }

/-- First loop of `App::word_operation` instantiated with `op = on_left`:
`while op(self).is_some() { if byte_at_cursor? != b' ' break }`.  The result
flag is `true` when control proceeds to the second loop and `false` when the
`?` on the byte lookup aborts `word_operation` early.  `fuel` bounds the
iterations; each successful `on_left` strictly decreases the byte cursor, so
`input_cursor + 1` fuel (supplied by the wrapper) is never exhausted. -/
def wordLoop1LeftAux : Nat → AppData → AppData × Bool
  | 0, d => (d, true)
  | fuel + 1, d =>
    match on_left d with
    | none => (d, true)
    | some d1 =>
      match d1.input.get? d1.input_cursor with
      | none => (d1, false)
      | some b =>
        if b ≠ 0x20 then (d1, true) else wordLoop1LeftAux fuel d1

/-- Second loop of `App::word_operation` with `op = on_left`:
`while op(self).is_some() { if byte_at_cursor? == b' ' return Some(()) }`;
falls through to `None` when `on_left` fails, aborts with `None` when the byte
lookup fails.  The flag is `true` exactly when the loop returned `Some(())`. -/
def wordLoop2LeftAux : Nat → AppData → AppData × Bool
  | 0, d => (d, false)
  | fuel + 1, d =>
    match on_left d with
    | none => (d, false)
    | some d1 =>
      match d1.input.get? d1.input_cursor with
      | none => (d1, false)
      | some b =>
        if b = 0x20 then (d1, true) else wordLoop2LeftAux fuel d1

/-- `App::word_operation` specialised to `op = Self::on_left` (the instance
used by `on_alt_left` and hence by the word-left motion). -/
def word_operation_left (d : AppData) : AppData × Option Unit :=
  let r1 := wordLoop1LeftAux (d.input_cursor + 1) d
  if r1.2 then
    let r2 := wordLoop2LeftAux (r1.1.input_cursor + 1) r1.1
    (r2.1, if r2.2 then some () else none)
  else (r1.1, none)

/-- `App::on_alt_left` (move a word back): one `on_left`, the word operation,
then one corrective `on_right` if the cursor landed on a space. -/
def on_alt_left (d : AppData) : AppData :=
  let d1 := match on_left d with
    | some d1 => d1
    | none => d
  let d2 := (word_operation_left d1).1
  if d2.input.get? d2.input_cursor = some 0x20 then
    match on_right d2 with
    | some d3 => d3
    | none => d2
  else d2

/-- First loop of `App::on_delete_word`:
`while byte_at(cursor.checked_sub(1)?)? == b' ' { on_backspace() }`.  The flag
is `false` when one of the `?` operators aborted `on_delete_word`. -/
def deleteWordLoop1Aux : Nat → AppData → AppData × Bool
  | 0, d => (d, false)
  | fuel + 1, d =>
    match d.input_cursor with
    | 0 => (d, false)
    | k + 1 =>
      match d.input.get? k with
      | none => (d, false)
      | some b =>
        if b = 0x20 then
          deleteWordLoop1Aux fuel
            (match on_backspace d with
             | some d1 => d1
             | none => d)
        else (d, true)

/-- Second loop of `App::on_delete_word`:
`while byte_at(cursor.checked_sub(1)?)? != b' ' { on_backspace() }`; the flag
is `true` exactly when the loop condition terminated it normally (so the
function returns `Some(())`). -/
def deleteWordLoop2Aux : Nat → AppData → AppData × Bool
  | 0, d => (d, false)
  | fuel + 1, d =>
    match d.input_cursor with
    | 0 => (d, false)
    | k + 1 =>
      match d.input.get? k with
      | none => (d, false)
      | some b =>
        if b ≠ 0x20 then
          deleteWordLoop2Aux fuel
            (match on_backspace d with
             | some d1 => d1
             | none => d)
        else (d, true)

/-- `App::on_delete_word`: skip a run of spaces, then delete the non-space run
before the cursor. -/
def on_delete_word (d : AppData) : AppData × Option Unit :=
  let r1 := deleteWordLoop1Aux (d.input_cursor + 1) d
  if r1.2 then
    let r2 := deleteWordLoop2Aux (r1.1.input_cursor + 1) r1.1
    (r2.1, if r2.2 then some () else none)
  else (r1.1, none)

/-- `App::on_delete_suffix`: truncate the buffer at the byte cursor when the
cursor lies strictly before the end. -/
def on_delete_suffix (d : AppData) : AppData :=
  if d.input_cursor < d.input.length then
    { d with input := d.input.take d.input_cursor }
  else d

/-! ## Reconciliation engine (`App` methods on the channel list) -/

/-- `App::reset_unread_messages`: zero the unread counter of the selected
channel; returns whether anything changed. -/
def reset_unread_messages (d : AppData) : AppData × Bool :=
  match d.channels.state.selected with
  | some i =>
    match d.channels.items.get? i with
    | some c =>
      if 0 < c.unread_messages then
        ({ d with channels :=
            { d.channels with
                items := d.channels.items.set i { c with unread_messages := 0 } } },
          true)
      else (d, false)
    | none => (d, false)
  | none => (d, false)

/-- One adjacent swap `items.swap(p, p + 1)` (`Vec::swap`; out-of-range
arguments, on which the source would panic, leave the list unchanged and are
excluded by the callers' bounds). -/
def swapAdj {α : Type} : List α → Nat → List α
  | a :: b :: t, 0 => b :: a :: t
  | a :: t, n + 1 => a :: swapAdj t n
  | l, _ => l

/-- The swap loop of `App::bubble_up_channel`:
`for (prev, next) in (0..idx).zip(1..idx + 1).rev() { items.swap(prev, next) }`,
i.e. adjacent swaps at positions `idx - 1, ..., 0`. -/
def bubbleLoop {α : Type} (l : List α) : Nat → List α
  | 0 => l
  | p + 1 => bubbleLoop (swapAdj l p) p

/-- `App::bubble_up_channel`: rotate the channel at `idx` to the front by
adjacent swaps, then re-point the selection. -/
def bubble_up_channel (d : AppData) (idx : Nat) : AppData :=
  let items := bubbleLoop d.channels.items idx
  let sel := match d.channels.state.selected with
    | some s => if s = idx then some 0 else if s < idx then some (s + 1) else some s
    | none => none
  { d with channels := { state := { selected := sel }, items := items } }

/-- Update the channel at `idx` in place (the `items[idx]` mutations of the
source; an out-of-range index, on which the source would panic, is left as the
identity and excluded by the callers' bounds). -/
def modifyChannel (d : AppData) (idx : Nat) (f : Channel → Channel) : AppData :=
  match d.channels.items.get? idx with
  | some c =>
    { d with channels :=
        { d.channels with items := d.channels.items.set idx (f c) } }
  | none => d

/-- `App::add_message_to_channel` (without the terminal `save()` side effect):
push the message, then clear the unread counter if the target is selected and
increment it otherwise, then bubble the channel up. -/
def add_message_to_channel (d : AppData) (idx : Nat) (m : Message) : AppData :=
  let d1 := modifyChannel d idx (fun c =>
    { c with messages := { c.messages with items := c.messages.items ++ [m] } })
  let d2 :=
    if d1.channels.state.selected ≠ some idx then
      modifyChannel d1 idx (fun c =>
        { c with unread_messages := c.unread_messages + 1 })
    else (reset_unread_messages d1).1
  bubble_up_channel d2 idx

/-- `Option::or_else` on plain options. -/
def firstSome {α : Type} (a b : Option α) : Option α :=
  match a with
  | some x => some x
  | none => b

/-- `App::resolve_contact_name`: decide which display name to use (the local
user's own name, a collaborator lookup, or the already-known channel name),
backfill it across channel names and stored message sender names, and create a
contact channel when none existed.  `lookup` stands for
`SignalClient::get_contact_name`. -/
def resolve_contact_name (lookup : String → Option String)
    (userPhone userName : String) (chs : List Channel) (phone_number : String) :
    String × List Channel :=
  let contact_channel :=
    chs.find? (fun c => decide (c.id = phone_number) && !c.is_group)
  let contact_channel_exists := contact_channel.isSome
  let name : Option String :=
    if phone_number = userPhone then some userName
    else
      match contact_channel with
      | some channel =>
        if channel.id = channel.name then lookup phone_number
        else some channel.name
      | none => lookup phone_number
  let chs1 := match name with
    | some n =>
      chs.map (fun channel =>
        let channel1 :=
          { channel with messages :=
              { channel.messages with items :=
                  channel.messages.items.map (fun m =>
                    if m.from_ = phone_number then { m with from_ := n } else m) } }
        if channel1.id = phone_number then { channel1 with name := n }
        else channel1)
    | none => chs
  let n := name.getD phone_number
  let chs2 :=
    if contact_channel_exists then chs1
    else chs1 ++ [{ id := phone_number, name := n, is_group := false,
                    messages := StatefulList.with_items [], unread_messages := 0 }]
  (n, chs2)

/-- Group-info record of an inbound message (`signal::GroupInfo` as used in
`app.rs`). -/
structure MsgGroupInfo where
  group_id : String
deriving DecidableEq

/-- Inbound message payload (`signal::InnerMessage` as used in `app.rs`). -/
structure InnerMessage where
  message : Option String
  attachments : Option (List String)
  group_info : Option MsgGroupInfo
  destination : Option String
deriving DecidableEq

/-- The sync wrapper carrying a sent message copy. -/
structure SyncMessagePart where
  sent_message : InnerMessage
deriving DecidableEq

/-- Envelope of an inbound event (`signal` message envelope as used in
`app.rs`). -/
structure Envelope where
  sync_message : Option SyncMessagePart
  data_message : Option InnerMessage
  source : String
  timestamp : Nat
deriving DecidableEq

/-- An inbound protocol message (`signal::Message` as used in `app.rs`). -/
structure SignalMessage where
  envelope : Envelope
deriving DecidableEq

/-- The default `Uuid` used as `from_id` for messages received by
`App::on_message`. -/
def uuidDefault : String := "00000000-0000-0000-0000-000000000000"

/-- `App::on_message` (without logging, desktop notifications and the
terminal `save()`): deserialisation failure and missing payloads are dropped,
the sender name is resolved (with backfill), the target channel is found or
created, and the message is appended with the unread/bubble-up update.
`lookupContact` stands for `SignalClient::get_contact_name`, `lookupGroup` for
`SignalClient::get_group_name`. -/
def on_message (lookupContact lookupGroup : String → Option String)
    (userPhone userName : String) (d : AppData)
    (message : Option SignalMessage) : AppData × Option Unit :=
  match message with
  | none => (d, none)
  | some message =>
    match firstSome (message.envelope.sync_message.map
        (fun m => m.sent_message)) message.envelope.data_message with
    | none => (d, none)
    | some msg =>
      let text := msg.message
      let attachments := msg.attachments.getD []
      if text.isNone && attachments.isEmpty then (d, none)
      else
        let is_from_me := message.envelope.source = userPhone
        match firstSome (msg.group_info.map (fun g => g.group_id))
            (if is_from_me then msg.destination
             else some message.envelope.source) with
        | none => (d, none)
        | some channel_id =>
          let is_group := msg.group_info.isSome
          let arrived_at := message.envelope.timestamp
          let resolved := resolve_contact_name lookupContact userPhone userName
            d.channels.items message.envelope.source
          let name := resolved.1
          let d1 := { d with channels := { d.channels with items := resolved.2 } }
          let found := d1.channels.items.findIdx?
            (fun c => decide (c.id = channel_id) && (c.is_group == is_group))
          let step : Nat × AppData :=
            match found with
            | some i => (i, d1)
            | none =>
              let channel_name :=
                if is_group then (lookupGroup channel_id).getD channel_id
                else name
              let d2 := { d1 with channels :=
                { d1.channels with items := d1.channels.items ++
                    [{ id := channel_id, name := channel_name,
                       is_group := is_group,
                       messages := StatefulList.with_items [],
                       unread_messages := 0 }] } }
              (d2.channels.items.length - 1, d2)
          let d3 := add_message_to_channel step.2 step.1
            { from_id := uuidDefault, from_ := name, message := text,
              attachments := attachments, arrived_at := arrived_at }
          (d3, some ())

/-- A group entry returned by `SignalClient::get_groups`. -/
structure GroupInfoEntry where
  group_id : String
  name : Option String
deriving DecidableEq

/-- A contact entry returned by `SignalClient::get_contacts`. -/
structure ContactInfoEntry where
  phone_number : String
  name : String
deriving DecidableEq

/-- Lexicographic comparison of character sequences.  `String::cmp` in Rust
compares the UTF-8 bytes lexicographically, which coincides with the
lexicographic order on the code points. -/
def lexLeChars : List Char → List Char → Bool
  | [], _ => true
  | _ :: _, [] => false
  | x :: xs, y :: ys =>
    if x.toNat < y.toNat then true
    else if y.toNat < x.toNat then false
    else lexLeChars xs ys

/-- The name ordering used by the first-load sort
(`sort_unstable_by(|a, b| a.name.cmp(&b.name))`). -/
def byName (a b : Channel) : Prop := lexLeChars a.name.data b.name.data = true

instance : DecidableRel byName := fun _ _ =>
  inferInstanceAs (Decidable (_ = true))

instance : IsTotal Channel byName := by
  constructor
  intro a b
  show lexLeChars a.name.data b.name.data = true ∨
    lexLeChars b.name.data a.name.data = true
  generalize a.name.data = xs
  generalize b.name.data = ys
  induction xs generalizing ys with
  | nil => left; rfl
  | cons x xs ih =>
    cases ys with
    | nil => right; rfl
    | cons y ys =>
      simp only [lexLeChars]
      rcases Nat.lt_trichotomy x.toNat y.toNat with h | h | h
      · left; simp [h]
      · have h1 : ¬ x.toNat < y.toNat := by omega
        have h2 : ¬ y.toNat < x.toNat := by omega
        rcases ih ys with h3 | h3 <;> simp [h1, h2, h3]
      · right; simp [h, Nat.lt_asymm h]

instance : IsTrans Channel byName := by
  constructor
  intro a b c hab hbc
  show lexLeChars a.name.data c.name.data = true
  revert hab hbc
  show lexLeChars a.name.data b.name.data = true →
    lexLeChars b.name.data c.name.data = true →
    lexLeChars a.name.data c.name.data = true
  generalize a.name.data = xs
  generalize b.name.data = ys
  generalize c.name.data = zs
  induction xs generalizing ys zs with
  | nil => intro _ _; rfl
  | cons x xs ih =>
    intro h1 h2
    cases ys with
    | nil => simp [lexLeChars] at h1
    | cons y ys =>
      cases zs with
      | nil => simp [lexLeChars] at h2
      | cons z zs =>
        simp only [lexLeChars] at h1 h2 ⊢
        by_cases hxy : x.toNat < y.toNat <;> by_cases hyx : y.toNat < x.toNat <;>
          by_cases hyz : y.toNat < z.toNat <;> by_cases hzy : z.toNat < y.toNat <;>
          simp [hxy, hyx, hyz, hzy] at h1 h2 <;>
          first
          | (have hxz : x.toNat < z.toNat := by omega
             rw [if_pos hxz])
          | (have hxz1 : ¬ x.toNat < z.toNat := by omega
             have hxz2 : ¬ z.toNat < x.toNat := by omega
             rw [if_neg hxz1, if_neg hxz2]
             exact ih ys zs h1 h2)

/-- The group channels built by `AppData::init_from_signal` (name falls back
to the raw group id). -/
def groupChannels (groups : List GroupInfoEntry) : List Channel :=
  groups.map (fun g =>
    { id := g.group_id, name := g.name.getD g.group_id, is_group := true,
      messages := StatefulList.with_items [], unread_messages := 0 })

/-- The contact channels built by `AppData::init_from_signal`. -/
def contactChannels (contacts : List ContactInfoEntry) : List Channel :=
  contacts.map (fun c =>
    { id := c.phone_number, name := c.name, is_group := false,
      messages := StatefulList.with_items [], unread_messages := 0 })

/-- `AppData::init_from_signal`: chain group channels and contact channels,
sort the whole list by display name (`sort_unstable_by` on `name`; modelled by
insertion sort - the source sort is unstable, so only sortedness and the
underlying multiset are specified), and select the first channel if any. -/
def init_from_signal (groups : List GroupInfoEntry)
    (contacts : List ContactInfoEntry) : AppData :=
  let channels :=
    List.insertionSort byName (groupChannels groups ++ contactChannels contacts)
  { channels :=
      { state := { selected := if channels.isEmpty then none else some 0 },
        items := channels },
    chanpos := { top := 0, upside := 0, downside := 0 },
    input := [], input_cursor := 0, input_cursor_chars := 0 }

/-- `App::on_up` (without the `save()` side effect): reset the unread counter,
update the viewport triple, move the selection up.  In the wrap-to-bottom case
the source computes `top = items.len() - downside - 1` with unchecked `usize`
arithmetic; the subtraction underflows (and the program panics) exactly when
`downside + 1` exceeds the list length, modelled here by returning `none`. -/
def on_up (d : AppData) : Option AppData :=
  let d0 := (reset_unread_messages d).1
  match d0.channels.state.selected with
  | some 0 =>
    if d0.chanpos.downside + 1 ≤ d0.channels.items.length then
      some { d0 with
              chanpos :=
                { top := d0.channels.items.length - d0.chanpos.downside - 1,
                  upside := d0.chanpos.downside, downside := 0 },
              channels := d0.channels.previous }
    else none
  | _ =>
    let d1 :=
      if d0.chanpos.upside = 0 then
        if 0 < d0.chanpos.top then
          { d0 with chanpos := { d0.chanpos with top := d0.chanpos.top - 1 } }
        else d0
      else
        { d0 with chanpos :=
            { d0.chanpos with upside := d0.chanpos.upside - 1,
                              downside := d0.chanpos.downside + 1 } }
    some { d1 with channels := d1.channels.previous }

/-! ## Persistence (`AppData::save` / `AppData::load`) -/

/-- One persisted channel record: `Channel` serialises its message list as the
plain vector `messages.items` (see `Channel::serialize_msgs`). -/
structure ChannelRecord where
  id : String
  name : String
  is_group : Bool
  messages : List Message
  unread_messages : Nat
deriving DecidableEq

/-- Modelled from the spec: the persisted snapshot written by `AppData::save`
(`util.rs`, whose serde derivation for `StatefulList` is not among the sources
at hand, persists only the plain item vector): the ordered channel list plus
the raw input buffer; `chanpos`, `input_cursor` and `input_cursor_chars` carry
`serde(skip)` and are not persisted. -/
structure Snapshot where
  channels : List ChannelRecord
  input : List Nat
deriving DecidableEq

/-- The serialisation performed by `AppData::save`. -/
def AppData.save (d : AppData) : Snapshot :=
  { channels := d.channels.items.map (fun c =>
      { id := c.id, name := c.name, is_group := c.is_group,
        messages := c.messages.items, unread_messages := c.unread_messages }),
    input := d.input }

/-- The deserialisation performed by `AppData::load`: rebuild the stateful
lists with no selection (`Channel::deserialize_msgs` uses `with_items`), then
set `input_cursor = input.len()` and `input_cursor_chars = input.width()`
(`width` is the external display-width function). -/
def AppData.load (width : List Nat → Nat) (s : Snapshot) : AppData :=
  { channels :=
      { state := { selected := none },
        items := s.channels.map (fun r =>
          { id := r.id, name := r.name, is_group := r.is_group,
            messages := StatefulList.with_items r.messages,
            unread_messages := r.unread_messages }) },
    chanpos := { top := 0, upside := 0, downside := 0 },
    input := s.input,
    input_cursor := s.input.length,
    input_cursor_chars := width s.input }

/-! ## Specification-side definitions (for comparison with the embedded
code) -/

/-- The channel order the specification describes for a fresh fetch: all
group channels first, then all contact channels, each block sorted
alphabetically by display name. -/
def initGroupsFirstSpec (groups : List GroupInfoEntry)
    (contacts : List ContactInfoEntry) : List Channel :=
  List.insertionSort byName (groupChannels groups) ++
    List.insertionSort byName (contactChannels contacts)

/-- The contact-name backfill the specification describes: rewrite the display
name of the channel whose id is the raw identifier and the sender display name
of every stored message whose sender equals the raw identifier. -/
def backfill (phone newName : String) (c : Channel) : Channel :=
  { c with
      name := if c.id = phone then newName else c.name,
      messages := { c.messages with
          items := c.messages.items.map (fun m =>
            if m.from_ = phone then { m with from_ := newName } else m) } }

/-- The channel content compared by the persistence round-trip: id, name,
is-group flag, message list and unread counter. -/
def channelContent (c : Channel) : String × String × Bool × List Message × Nat :=
  (c.id, c.name, c.is_group, c.messages.items, c.unread_messages)

/-! ## Concrete fixtures -/

/-- An input-editing state with the given buffer bytes and cursors and no
channels. -/
def mkInput (bytes : List Nat) (cur chars : Nat) : AppData :=
  { channels := { state := { selected := none }, items := [] },
    chanpos := { top := 0, upside := 0, downside := 0 },
    input := bytes, input_cursor := cur, input_cursor_chars := chars }

/-- An application state with the given channels and selection and an empty
input buffer. -/
def mkChannels (l : List Channel) (sel : Option Nat) : AppData :=
  { channels := { state := { selected := sel }, items := l },
    chanpos := { top := 0, upside := 0, downside := 0 },
    input := [], input_cursor := 0, input_cursor_chars := 0 }

/-- The UTF-8 bytes of "hello world". -/
def helloWorld : List Nat := [104, 101, 108, 108, 111, 32, 119, 111, 114, 108, 100]

/-- The UTF-8 bytes of "world". -/
def worldBytes : List Nat := [119, 111, 114, 108, 100]

/-- Fixture channel named "A". -/
def chA : Channel :=
  { id := "a", name := "A", is_group := false,
    messages := StatefulList.with_items [], unread_messages := 0 }

/-- Fixture channel named "B". -/
def chB : Channel :=
  { id := "b", name := "B", is_group := false,
    messages := StatefulList.with_items [], unread_messages := 0 }

/-- Fixture channel named "C". -/
def chC : Channel :=
  { id := "c", name := "C", is_group := false,
    messages := StatefulList.with_items [], unread_messages := 0 }

/-- Fixture message. -/
def msgM : Message :=
  { from_id := "u", from_ := "alice", message := some "hi",
    attachments := [], arrived_at := 7 }

/-- Fixture channel list for the contact-name backfill scenario: a contact
channel that still carries the raw identifier as its display name, and a group
channel holding a stored message from that identifier. -/
def backfillFixture : List Channel :=
  [{ id := "+15551234", name := "+15551234", is_group := false,
     messages := StatefulList.with_items [], unread_messages := 0 },
   { id := "g", name := "Group", is_group := true,
     messages := { state := { selected := none },
                   items := [{ from_id := "x", from_ := "+15551234", message := none,
                               attachments := [], arrived_at := 3 }] },
     unread_messages := 2 }]

/-! ## General lemmas about the list primitives -/

theorem swapAdj_append {α : Type} (A : List α) (y a : α) (B : List α) :
    swapAdj (A ++ y :: a :: B) A.length = A ++ a :: y :: B := by
  induction A with
  | nil => rfl
  | cons x A ih => simp [swapAdj, ih]

theorem bubbleLoop_append {α : Type} (A : List α) (a : α) (B : List α) :
    bubbleLoop (A ++ a :: B) A.length = a :: (A ++ B) := by
  induction A using List.reverseRecOn generalizing B with
  | nil => rfl
  | append_singleton A y ih =>
    have h1 : (A ++ [y]).length = A.length + 1 := by simp
    rw [h1]
    show bubbleLoop (swapAdj ((A ++ [y]) ++ a :: B) A.length) A.length = _
    have h2 : (A ++ [y]) ++ a :: B = A ++ y :: a :: B := by simp
    rw [h2, swapAdj_append, ih (y :: B)]
    simp

theorem set_eq_take_cons_drop {α : Type} (l : List α) (n : Nat) (a : α)
    (h : n < l.length) : l.set n a = l.take n ++ a :: l.drop (n + 1) := by
  induction l generalizing n with
  | nil => simp at h
  | cons x t ih =>
    cases n with
    | zero => simp
    | succ m => simp [ih m (by simpa using h)]

theorem take_cons_drop {α : Type} (l : List α) (n : Nat) (h : n < l.length) :
    l.take n ++ l.get ⟨n, h⟩ :: l.drop (n + 1) = l := by
  induction l generalizing n with
  | nil => simp at h
  | cons x t ih =>
    cases n with
    | zero => simp
    | succ m => simp [ih m (by simpa using h)]

theorem bubbleLoop_eq {α : Type} (l : List α) (idx : Nat) (h : idx < l.length) :
    bubbleLoop l idx = l.get ⟨idx, h⟩ :: (l.take idx ++ l.drop (idx + 1)) := by
  have hlen : (l.take idx).length = idx := by
    simp [List.length_take, Nat.min_eq_left (Nat.le_of_lt h)]
  conv_lhs => rw [← take_cons_drop l idx h]
  have h2 := bubbleLoop_append (l.take idx) (l.get ⟨idx, h⟩) (l.drop (idx + 1))
  rw [hlen] at h2
  exact h2

theorem bubbleLoop_set {α : Type} (l : List α) (idx : Nat) (a : α)
    (h : idx < l.length) :
    bubbleLoop (l.set idx a) idx = a :: (l.take idx ++ l.drop (idx + 1)) := by
  have hlen : (l.take idx).length = idx := by
    simp [List.length_take, Nat.min_eq_left (Nat.le_of_lt h)]
  rw [set_eq_take_cons_drop l idx a h]
  have h2 := bubbleLoop_append (l.take idx) a (l.drop (idx + 1))
  rw [hlen] at h2
  exact h2

theorem get?_set_self {α : Type} (l : List α) (n : Nat) (a : α)
    (h : n < l.length) : (l.set n a).get? n = some a := by
  induction l generalizing n with
  | nil => simp at h
  | cons x t ih =>
    cases n with
    | zero => rfl
    | succ m => simpa using ih m (by simpa using h)

theorem reset_unread_preserves (d : AppData) :
    (reset_unread_messages d).1.channels.state.selected = d.channels.state.selected
    ∧ (reset_unread_messages d).1.chanpos = d.chanpos
    ∧ (reset_unread_messages d).1.channels.items.length = d.channels.items.length := by
  unfold reset_unread_messages
  split
  · split
    · split_ifs <;> simp [List.length_set]
    · simp
  · simp

/-! ## The claims -/

/-- C1: for every channel list and every in-range index `idx`, the bubble-up
reorder moves the channel at `idx` to index 0 by adjacent swaps while
preserving the relative order of all other channels (a rotate), and the
selection is adjusted to track the same logical channel: a selection equal to
`idx` becomes 0, one below `idx` increases by 1, any other is unchanged. -/
theorem bubble_up_channel_rotates (d : AppData) (idx : Nat)
    (h : idx < d.channels.items.length) :
    (bubble_up_channel d idx).channels.items =
      d.channels.items.get ⟨idx, h⟩ ::
        (d.channels.items.take idx ++ d.channels.items.drop (idx + 1))
    ∧ (bubble_up_channel d idx).channels.state.selected =
      d.channels.state.selected.map
        (fun s => if s = idx then 0 else if s < idx then s + 1 else s) := by
  constructor
  · show bubbleLoop d.channels.items idx = _
    exact bubbleLoop_eq d.channels.items idx h
  · cases hs : d.channels.state.selected with
    | none => simp [bubble_up_channel, hs]
    | some s =>
      simp only [bubble_up_channel, hs, Option.map_some']
      split_ifs <;> rfl

/-- C1 witness: channels `[A, B, C]` with selection on `B` (index 1);
bubble-up of `C` (index 2) yields `[C, A, B]` with selection at index 2. -/
theorem bubble_up_channel_rotates_witness :
    (bubble_up_channel (mkChannels [chA, chB, chC] (some 1)) 2).channels.items
        = [chC, chA, chB]
    ∧ (bubble_up_channel (mkChannels [chA, chB, chC] (some 1)) 2).channels.state.selected
        = some 2 := by
  have h := bubble_up_channel_rotates (mkChannels [chA, chB, chC] (some 1)) 2 (by decide)
  exact ⟨h.1.trans (by decide), h.2.trans (by decide)⟩

/-- C2: the claimed invariant - after any editing sequence from the empty
buffer the byte cursor is a UTF-8 boundary and the characters in the prefix
before it equal the stored char offset - is broken by the code: inserting
U+00E9 (two UTF-8 bytes), then Home, then Right leaves the byte cursor at 0
(a boundary) while the char offset becomes 1, although the prefix before the
cursor holds 0 characters.  The cause is the downward boundary scan in
`on_right`, which re-lands on the starting position for a multi-byte
character but still increments the char offset. -/
theorem text_cursor_char_offset_desync :
    on_right (on_home (put_char (mkInput [] 0 0) 233)) = some (mkInput [195, 169] 0 1)
    ∧ isCharBoundary [195, 169] 0 = true
    ∧ charCountBeforeCursor (mkInput [195, 169] 0 1) = 0
    ∧ (mkInput [195, 169] 0 1).input_cursor_chars = 1 := by decide

/-- C3 counterexample: one group named "Zeta" and one contact named "Alpha";
the initial fetch yields the contact before the group (the whole combined
list is sorted by name), not the groups-first order the claim describes. -/
theorem init_from_signal_not_groups_first :
    (init_from_signal [{ group_id := "g1", name := some "Zeta" }]
        [{ phone_number := "+1", name := "Alpha" }]).channels.items ≠
      initGroupsFirstSpec [{ group_id := "g1", name := some "Zeta" }]
        [{ phone_number := "+1", name := "Alpha" }]
    ∧ (init_from_signal [{ group_id := "g1", name := some "Zeta" }]
        [{ phone_number := "+1", name := "Alpha" }]).channels.items.map Channel.is_group
      = [false, true] := by decide

/-- C3 amended: the channel list produced by the initial fetch is sorted
alphabetically by display name as one combined list (groups and contacts
interleaved) and is a permutation of the group channels together with the
contact channels. -/
theorem init_from_signal_sorted_by_name (groups : List GroupInfoEntry)
    (contacts : List ContactInfoEntry) :
    List.Sorted byName (init_from_signal groups contacts).channels.items
    ∧ List.Perm (init_from_signal groups contacts).channels.items
        (groupChannels groups ++ contactChannels contacts) :=
  ⟨List.sorted_insertionSort byName _, List.perm_insertionSort byName _⟩

/-- C4: `on_right` does not advance over a multi-byte character, contradicting
the claim: on buffer "é" (bytes 195, 169) with the cursor at 0, it returns
`Some` with the byte cursor still at 0 (and the char offset incremented)
instead of advancing the cursor to 2.  The boundary-seeking loop decrements
the index, so it scans back to the starting boundary. -/
theorem on_right_stuck_on_multibyte :
    on_right (mkInput [195, 169] 0 0) = some (mkInput [195, 169] 0 1)
    ∧ on_right (mkInput [195, 169] 0 0) ≠ some (mkInput [195, 169] 2 1) := by decide

/-- C5 counterexample: from buffer "hello world" with the cursor at byte 11,
two `move_word_left` steps followed by one `delete_word_left` do not yield
"world". -/
theorem hello_world_word_trace_not_world :
    (on_delete_word (on_alt_left (on_alt_left (mkInput helloWorld 11 11)))).1.input
      ≠ worldBytes := by decide

/-- C5 amended: from buffer "hello world" with the cursor at byte 11, the two
`move_word_left` steps move the cursor to byte 0 (the start of "hello"), and
`delete_word_left` there is a failing no-op: the buffer remains
"hello world" with the cursor at 0. -/
theorem hello_world_word_trace_unchanged :
    on_delete_word (on_alt_left (on_alt_left (mkInput helloWorld 11 11)))
      = (mkInput helloWorld 0 0, none) := by decide

/-- C6: processing an incoming message for the channel at `idx` appends the
message there and updates unread counters so that the target channel (rotated
to the front) has unread count 0 when it was the selected channel and its old
count plus one otherwise, while every other channel - the rotated tail - is
unchanged. -/
theorem add_message_to_channel_unread (d : AppData) (idx : Nat) (m : Message)
    (h : idx < d.channels.items.length) :
    (add_message_to_channel d idx m).channels.items =
      { d.channels.items.get ⟨idx, h⟩ with
          messages := { (d.channels.items.get ⟨idx, h⟩).messages with
              items := (d.channels.items.get ⟨idx, h⟩).messages.items ++ [m] },
          unread_messages :=
            if d.channels.state.selected = some idx then 0
            else (d.channels.items.get ⟨idx, h⟩).unread_messages + 1 }
        :: (d.channels.items.take idx ++ d.channels.items.drop (idx + 1)) := by
  have hget : d.channels.items.get? idx = some (d.channels.items.get ⟨idx, h⟩) :=
    List.get?_eq_get h
  by_cases hs : d.channels.state.selected = some idx
  · simp only [add_message_to_channel, modifyChannel, reset_unread_messages, hget, hs]
    rw [if_neg (by simp)]
    rw [get?_set_self _ _ _ h]
    dsimp only
    by_cases hu : 0 < (d.channels.items.get ⟨idx, h⟩).unread_messages
    · rw [if_pos hu]
      show bubbleLoop ((d.channels.items.set idx _).set idx _) idx = _
      rw [List.set_set, bubbleLoop_set _ _ _ h]
      simp
    · rw [if_neg hu]
      show bubbleLoop (d.channels.items.set idx _) idx = _
      rw [bubbleLoop_set _ _ _ h]
      have h0 : (d.channels.items.get ⟨idx, h⟩).unread_messages = 0 :=
        Nat.eq_zero_of_not_pos hu
      have h1 : d.channels.items[idx].unread_messages = 0 := h0
      simp [h1]
  · simp only [add_message_to_channel, modifyChannel, reset_unread_messages, hget]
    rw [if_pos hs]
    rw [get?_set_self _ _ _ h]
    dsimp only
    show bubbleLoop ((d.channels.items.set idx _).set idx _) idx = _
    rw [List.set_set, bubbleLoop_set _ _ _ h]
    simp [hs]

/-- C6 witness: with channels `[A, B]`, selection on `A` and a message
arriving for `B`, the result is `B` in front with one unread message appended
and `A` unchanged. -/
theorem add_message_to_channel_unread_witness :
    (add_message_to_channel (mkChannels [chA, chB] (some 0)) 1 msgM).channels.items
      = [{ chB with messages := ⟨⟨none⟩, [msgM]⟩, unread_messages := 1 }, chA] :=
  (add_message_to_channel_unread (mkChannels [chA, chB] (some 0)) 1 msgM
    (by decide)).trans (by decide)

/-- C7: when a name is resolved (via the collaborator lookup) for an identity
whose contact channel still carries the raw identifier as its display name,
the resolution rewrites the display name of every channel with that id and the
sender display name of every stored message (across all channels) whose
sender equals the raw identifier, leaving everything else unchanged and
appending no channel. -/
theorem resolve_contact_name_backfills
    (lookup : String → Option String) (userPhone userName phone newName : String)
    (chs : List Channel) (c0 : Channel)
    (hne : phone ≠ userPhone)
    (hfind : chs.find? (fun c => decide (c.id = phone) && !c.is_group) = some c0)
    (hraw : c0.id = c0.name)
    (hlookup : lookup phone = some newName) :
    resolve_contact_name lookup userPhone userName chs phone
      = (newName, chs.map (backfill phone newName)) := by
  simp only [resolve_contact_name, hfind, hlookup, if_neg hne, hraw, if_pos,
    Option.isSome_some, if_true, Option.getD_some]
  congr 1
  apply List.map_congr_left
  intro c _
  by_cases hc : c.id = phone <;> simp [backfill, hc]

/-- C7 witness: a channel created with "+15551234" as both id and name; after
resolution yields "Alice", the channel's name and the stored message sender
names equal to "+15551234" (also in the other, group channel) are rewritten to
"Alice". -/
theorem resolve_contact_name_backfills_witness :
    resolve_contact_name (fun s => if s = "+15551234" then some "Alice" else none)
        "+15550000" "me" backfillFixture "+15551234"
      = ("Alice",
         [{ id := "+15551234", name := "Alice", is_group := false,
            messages := StatefulList.with_items [], unread_messages := 0 },
          { id := "g", name := "Group", is_group := true,
            messages := { state := { selected := none },
                          items := [{ from_id := "x", from_ := "Alice", message := none,
                                      attachments := [], arrived_at := 3 }] },
            unread_messages := 2 }]) :=
  (resolve_contact_name_backfills
    (fun s => if s = "+15551234" then some "Alice" else none)
    "+15550000" "me" "+15551234" "Alice" backfillFixture
    { id := "+15551234", name := "+15551234", is_group := false,
      messages := StatefulList.with_items [], unread_messages := 0 }
    (by decide) (by decide) (by decide) (by decide)).trans (by decide)

/-- C8: reloading a saved snapshot reproduces the channel list (order, id,
name, is-group flag, message lists and unread counts) and the input buffer,
with the byte cursor at the end of the reloaded buffer; this holds for every
display-width function used to recompute the char offset. -/
theorem appdata_save_load_roundtrip (width : List Nat → Nat) (d : AppData) :
    (AppData.load width (AppData.save d)).channels.items.map channelContent
        = d.channels.items.map channelContent
    ∧ (AppData.load width (AppData.save d)).input = d.input
    ∧ (AppData.load width (AppData.save d)).input_cursor
        = (AppData.load width (AppData.save d)).input.length := by
  refine ⟨?_, rfl, rfl⟩
  simp [AppData.load, AppData.save, channelContent, List.map_map, Function.comp,
    StatefulList.with_items]

/-- C9: an inbound message event whose extracted payload has no body text and
an empty attachment list is silently dropped by `on_message`: the state is
returned unchanged (no message appended, no channel created, no unread
counter changed) with `none` signalling the drop. -/
theorem on_message_drops_empty
    (lookupContact lookupGroup : String → Option String)
    (userPhone userName : String) (d : AppData)
    (message : Option SignalMessage) (sm : SignalMessage) (msg : InnerMessage)
    (hm : message = some sm)
    (hex : firstSome (sm.envelope.sync_message.map (fun m => m.sent_message))
        sm.envelope.data_message = some msg)
    (htext : msg.message = none)
    (hatt : msg.attachments.getD [] = []) :
    on_message lookupContact lookupGroup userPhone userName d message = (d, none) := by
  subst hm
  simp [on_message, hex, htext, hatt]

/-- C9 witness: a data message with no body and no attachments leaves a
one-channel state untouched and is dropped. -/
theorem on_message_drops_empty_witness :
    on_message (fun _ => none) (fun _ => none) "+2" "me" (mkChannels [chA] (some 0))
      (some { envelope := { sync_message := none,
                            data_message := some { message := none, attachments := none,
                                                   group_info := none, destination := none },
                            source := "+10", timestamp := 0 } })
      = (mkChannels [chA] (some 0), none) :=
  on_message_drops_empty _ _ _ _ _ _ _ _ rfl rfl rfl rfl

/-- C10: when the selection is at index 0 (the wrap-to-bottom case of
`on_up`), the unchecked computation `top = len - downside - 1` completes
without underflow exactly when `downside + 1` is at most the channel-list
length; otherwise the subtraction underflows and the operation cannot
complete (modelled as `none`). -/
theorem on_up_wrap_isSome_iff (d : AppData)
    (h : d.channels.state.selected = some 0) :
    (on_up d).isSome ↔ d.chanpos.downside + 1 ≤ d.channels.items.length := by
  obtain ⟨hsel, hpos, hlen⟩ := reset_unread_preserves d
  have h0 : (reset_unread_messages d).1.channels.state.selected = some 0 :=
    hsel.trans h
  unfold on_up
  simp only [h0]
  rw [hpos, hlen]
  split_ifs with hc <;> simp [hc]

/-- C10 witness: a single-channel list with selection at 0 and `downside = 0`
satisfies the precondition and `on_up` completes. -/
theorem on_up_wrap_isSome_iff_witness :
    (on_up (mkChannels [chA] (some 0))).isSome :=
  (on_up_wrap_isSome_iff (mkChannels [chA] (some 0)) (by decide)).mpr (by decide)
